import Mathlib

/-!
Verification of the outbound message dispatch engine of the signalmeow
sending core (`provisioning.go`, package `signalmeow`).

The Go source is shallowly embedded: bytes are `Nat` values (< 256 by
convention; the only bytes written by the padding codec are `0x80` and `0`),
byte slices are `List Nat`, fallible Go functions returning `(T, error)`
become `Except String T` or a product with an `Option String` error slot,
and the external capabilities (session store, cipher FFI, websocket
transport, profile-key lookup) are supplied as explicit oracle environments
so that the control flow of the Go code itself is what is modelled.
-/

/-! ### Basic data model

`Address` mirrors `libsignalgo.Address` restricted to the data this core
reads from it (`Name`/uuid and `DeviceID`); `SessionRecord` mirrors
`libsignalgo.SessionRecord` restricted to `GetRemoteRegistrationID`.  The
FFI accessors are modelled as total reads of that data. -/

structure Address where
  uuid : String
  deviceId : Nat
deriving Repr, DecidableEq

structure SessionRecord where
  remoteRegistrationId : Nat
deriving Repr, DecidableEq

/-- `MyMessage` from the source, with its JSON field names
`type`, `destinationDeviceId`, `destinationRegistrationId`, `content`. -/
structure MyMessage where
  type : Nat
  destinationDeviceID : Nat
  destinationRegistrationID : Nat
  content : String
deriving Repr, DecidableEq

/-- `MyMessages` from the source, with JSON field names
`timestamp`, `online`, `urgent`, `messages`. -/
structure MyMessages where
  timestamp : Int
  online : Bool
  urgent : Bool
  messages : List MyMessage
deriving Repr, DecidableEq

/-- Envelope type constants: `signalpb.Envelope_CIPHERTEXT`. -/
def Envelope_CIPHERTEXT : Nat := 1
/-- `signalpb.Envelope_PREKEY_BUNDLE`. -/
def Envelope_PREKEY_BUNDLE : Nat := 3
/-- `signalpb.Envelope_UNIDENTIFIED_SENDER`. -/
def Envelope_UNIDENTIFIED_SENDER : Nat := 6
/-- `libsignalgo.CiphertextMessageTypePreKey` (source comment: 3 -> 3). -/
def CiphertextMessageTypePreKey : Nat := 3
/-- `libsignalgo.CiphertextMessageTypeWhisper` (source comment: 2 -> 1). -/
def CiphertextMessageTypeWhisper : Nat := 2

/-! ### base64 (Go `base64.StdEncoding.EncodeToString`) -/

/-- The standard base64 alphabet. -/
def base64Table : List Char :=
  "ABCDEFGHIJKLMNOPQRSTUVWXYZabcdefghijklmnopqrstuvwxyz0123456789+/".toList

/-- Character for one 6-bit group. -/
def b64Char (n : Nat) : Char := base64Table.getD n 'A'

/-- Encode a byte list to base64 characters, standard padding. -/
def base64EncodeList : List Nat → List Char
  | [] => []
  | [b1] =>
    let x1 := b1 % 256
    [b64Char (x1 / 4), b64Char (x1 % 4 * 16), '=', '=']
  | [b1, b2] =>
    let x1 := b1 % 256
    let x2 := b2 % 256
    [b64Char (x1 / 4), b64Char (x1 % 4 * 16 + x2 / 16), b64Char (x2 % 16 * 4), '=']
  | b1 :: b2 :: b3 :: rest =>
    let x1 := b1 % 256
    let x2 := b2 % 256
    let x3 := b3 % 256
    b64Char (x1 / 4) :: b64Char (x1 % 4 * 16 + x2 / 16) ::
      b64Char (x2 % 16 * 4 + x3 / 64) :: b64Char (x3 % 64) ::
      base64EncodeList rest

/-- Go `base64.StdEncoding.EncodeToString`. -/
def base64Encode (bs : List Nat) : String := String.mk (base64EncodeList bs)

/-! ### Padding codec (`padBlock`, `addPadding`) -/

/-- `padBlock(block *[]byte, pos int) error` from the source: fails when the
write position is at or beyond the block length, otherwise writes the
terminator `0x80` at `pos` and zeroes every later byte, keeping the prefix. -/
def padBlock (block : List Nat) (pos : Nat) : Except String (List Nat) :=
  if pos ≥ block.length then
    Except.error "Padding error: position exceeds block length"
  else
    Except.ok (block.take pos ++ 0x80 :: List.replicate (block.length - (pos + 1)) 0)

/-- The buffer length computed by `addPadding` for version ≥ 3:
`messagePartCount * 160` where `messagePartCount` is
`(len+1)/160`, incremented when `(len+1) % 160 ≠ 0`. -/
def paddedMessageLength (messageLength : Nat) : Nat :=
  let messageLengthWithTerminator := messageLength + 1
  let messagePartCount :=
    if messageLengthWithTerminator % 160 ≠ 0 then
      messageLengthWithTerminator / 160 + 1
    else
      messageLengthWithTerminator / 160
  messagePartCount * 160

/-- `addPadding(version uint32, contents []byte) ([]byte, error)` from the
source.  Version < 2 is rejected, version 2 passes the input through,
version ≥ 3 copies the contents into a zero buffer of `paddedMessageLength`
bytes and runs `padBlock` at position `len(contents)`. -/
def addPadding (version : Nat) (contents : List Nat) : Except String (List Nat) :=
  if version < 2 then
    Except.error ("Unknown version " ++ toString version)
  else if version = 2 then
    Except.ok contents
  else
    let messageLength := contents.length
    let messageLengthWithPadding := paddedMessageLength messageLength
    let buffer := contents.take messageLengthWithPadding
      ++ List.replicate (messageLengthWithPadding - messageLength) 0
    match padBlock buffer messageLength with
    | Except.error e => Except.error ("Invalid message padding: " ++ e)
    | Except.ok b => Except.ok b

lemma paddedMessageLength_lt (n : Nat) : n < paddedMessageLength n := by
  unfold paddedMessageLength
  have hdm := Nat.div_add_mod (n + 1) 160
  by_cases h : (n + 1) % 160 = 0
  · simp only [h, ne_eq, not_true_eq_false, if_false]
    omega
  · simp only [ne_eq, h, not_false_eq_true, if_true]
    have hlt : (n + 1) % 160 < 160 := Nat.mod_lt _ (by norm_num)
    omega

lemma paddedMessageLength_mod (n : Nat) : paddedMessageLength n % 160 = 0 := by
  simp only [paddedMessageLength]
  split <;> simp [Nat.mul_mod_left]

/-- For version ≥ 3 the padded output is exactly the contents, the
terminator byte, and zeros up to `paddedMessageLength`. -/
lemma addPadding_v3_eq (version : Nat) (hv : 3 ≤ version) (contents : List Nat) :
    addPadding version contents =
      Except.ok (contents ++ 0x80 ::
        List.replicate (paddedMessageLength contents.length - (contents.length + 1)) 0) := by
  have h1 : ¬ version < 2 := by omega
  have h2 : ¬ version = 2 := by omega
  have hlt := paddedMessageLength_lt contents.length
  have htake : contents.take (paddedMessageLength contents.length) = contents :=
    List.take_of_length_le (by omega)
  have hlen : (contents ++ List.replicate (paddedMessageLength contents.length
      - contents.length) 0).length = paddedMessageLength contents.length := by
    simp only [List.length_append, List.length_replicate]
    omega
  simp only [addPadding, if_neg h1, if_neg h2, htake, padBlock, hlen]
  rw [if_neg (by omega : ¬ contents.length ≥ paddedMessageLength contents.length)]
  rw [List.take_append_of_le_length (le_refl _), List.take_length]

/-- Claim C2: padding with version < 2 fails; version 2 returns the input
unchanged; version ≥ 3 returns a buffer whose length is a positive multiple
of 160 and at least `len(input) + 1`, whose first `len(input)` bytes equal
the input, whose byte at index `len(input)` is `0x80`, and whose bytes after
that index are all zero. -/
theorem addPadding_spec (version : Nat) (contents : List Nat) :
    (version < 2 → ∃ e, addPadding version contents = Except.error e) ∧
    (version = 2 → addPadding version contents = Except.ok contents) ∧
    (3 ≤ version → ∃ out, addPadding version contents = Except.ok out ∧
      out.length % 160 = 0 ∧ 0 < out.length ∧
      contents.length + 1 ≤ out.length ∧
      out.take contents.length = contents ∧
      out.getD contents.length 0 = 0x80 ∧
      out.drop (contents.length + 1) =
        List.replicate (out.length - (contents.length + 1)) 0) := by
  refine ⟨?_, ?_, ?_⟩
  · intro h
    exact ⟨"Unknown version " ++ toString version, by simp [addPadding, h]⟩
  · intro h
    subst h
    simp [addPadding]
  · intro h
    have hlt := paddedMessageLength_lt contents.length
    refine ⟨contents ++ 0x80 ::
      List.replicate (paddedMessageLength contents.length - (contents.length + 1)) 0,
      addPadding_v3_eq version h contents, ?_⟩
    have hlen : (contents ++ 0x80 ::
        List.replicate (paddedMessageLength contents.length - (contents.length + 1)) 0).length
        = paddedMessageLength contents.length := by
      simp only [List.length_append, List.length_cons, List.length_replicate]
      omega
    rw [hlen]
    refine ⟨paddedMessageLength_mod _, by omega, by omega, ?_, ?_, ?_⟩
    · rw [List.take_append_of_le_length (le_refl _), List.take_length]
    · rw [List.getD_append_right _ _ _ _ (le_refl _), Nat.sub_self]
      rfl
    · have hsplit : contents ++ 0x80 ::
          List.replicate (paddedMessageLength contents.length - (contents.length + 1)) 0
          = (contents ++ [0x80]) ++
            List.replicate (paddedMessageLength contents.length - (contents.length + 1)) 0 := by
        simp
      rw [hsplit]
      have hlen2 : (contents ++ [0x80]).length = contents.length + 1 := by simp
      rw [← hlen2, List.drop_left]

/-- Witness for `addPadding_spec` at concrete inputs. -/
theorem addPadding_spec_witness :
    (∃ e, addPadding 1 [1, 2, 3] = Except.error e) ∧
    addPadding 2 [1, 2, 3] = Except.ok [1, 2, 3] ∧
    (∃ out, addPadding 3 [1, 2, 3] = Except.ok out ∧
      out.length % 160 = 0 ∧ 0 < out.length ∧
      [1, 2, 3].length + 1 ≤ out.length ∧
      out.take [1, 2, 3].length = [1, 2, 3] ∧
      out.getD [1, 2, 3].length 0 = 0x80 ∧
      out.drop ([1, 2, 3].length + 1) =
        List.replicate (out.length - ([1, 2, 3].length + 1)) 0) :=
  ⟨(addPadding_spec 1 [1, 2, 3]).1 (by decide),
   (addPadding_spec 2 [1, 2, 3]).2.1 rfl,
   (addPadding_spec 3 [1, 2, 3]).2.2 (by decide)⟩

/-- Claim C10: padding with version ≥ 3 always succeeds: the terminator
write position `len(plaintext)` is strictly below the computed buffer length,
so the "position exceeds block length" branch of `padBlock` is unreachable
and `addPadding` never returns an error on this path. -/
theorem addPadding_v3_total (version : Nat) (contents : List Nat) (hv : 3 ≤ version) :
    contents.length < paddedMessageLength contents.length ∧
    ∃ out,
      padBlock (contents.take (paddedMessageLength contents.length)
        ++ List.replicate (paddedMessageLength contents.length - contents.length) 0)
        contents.length = Except.ok out ∧
      addPadding version contents = Except.ok out := by
  have hlt := paddedMessageLength_lt contents.length
  refine ⟨hlt, contents ++ 0x80 ::
    List.replicate (paddedMessageLength contents.length - (contents.length + 1)) 0, ?_,
    addPadding_v3_eq version hv contents⟩
  have htake : contents.take (paddedMessageLength contents.length) = contents :=
    List.take_of_length_le (by omega)
  have hlen : (contents ++ List.replicate (paddedMessageLength contents.length
      - contents.length) 0).length = paddedMessageLength contents.length := by
    simp only [List.length_append, List.length_replicate]
    omega
  rw [htake]
  simp only [padBlock, hlen]
  rw [if_neg (by omega : ¬ contents.length ≥ paddedMessageLength contents.length)]
  rw [List.take_append_of_le_length (le_refl _), List.take_length]

/-- Witness for `addPadding_v3_total` at a concrete input. -/
theorem addPadding_v3_total_witness :
    [7, 7].length < paddedMessageLength [7, 7].length ∧
    ∃ out,
      padBlock ([7, 7].take (paddedMessageLength [7, 7].length)
        ++ List.replicate (paddedMessageLength [7, 7].length - [7, 7].length) 0)
        [7, 7].length = Except.ok out ∧
      addPadding 3 [7, 7] = Except.ok out :=
  addPadding_v3_total 3 [7, 7] (by decide)

/-! ### Transport request and observable effects

`WSRequest` mirrors `web.CreateWSRequest("PUT", path, jsonBytes, nil, nil)`
plus the later header append; the JSON body is kept as the `MyMessages`
value it serializes.  `Event` records the externally observable effects of
one logical send: prekey-bundle fetches (`FetchAndProcessPreKey`, device id
`-1` is the "all devices" sentinel), session removals
(`SessionStoreExtras.RemoveSession`), and transport dispatches
(`SendRequest` over the unauthenticated websocket when `sealed` is true,
over the authenticated one otherwise). -/

structure WSRequest where
  verb : String
  path : String
  body : MyMessages
  headers : List String
deriving Repr, DecidableEq

inductive Event where
  | fetchPreKey (uuid : String) (deviceId : Int)
  | removeSession (uuid : String) (deviceId : Nat)
  | dispatched (depth : Nat) (request : WSRequest) (sealed : Bool)
deriving Repr, DecidableEq

def isDispatched : Event → Bool
  | Event.dispatched _ _ _ => true
  | _ => false

/-! ### Envelope builder (`buildMessagesToSend` and helpers) -/

/-- Outcome of the external cipher on one address: the result of
`libsignalgo.Encrypt` followed by `.Serialize()` (the error of `Encrypt`
itself is overwritten by the `Serialize` call in the source before it is
checked, so the two are modelled as one fallible step), plus the value of
`.MessageType()` (whose error the source discards). -/
structure CipherOutcome where
  serialized : Option (List Nat)
  messageType : Nat

/-- Oracle environment for one `buildMessagesToSend` call: the first
`AllSessionsForUUID` query, the re-query after the no-session prekey fetch,
the authenticated cipher, and the sealed-sender path (sender certificate
fetch and `SealedSenderEncryptPlaintext`, whose error the source drops by
returning a literal `nil`). -/
structure BuildEnv where
  sessions1 : Except String (List Address × List SessionRecord)
  sessions2 : Except String (List Address × List SessionRecord)
  cipher : Address → List Nat → CipherOutcome
  ssCert : Except String Unit
  ssEncrypt : Address → List Nat → List Nat

/-- `buildAuthedMessageToSend`: serialize failure and unknown ciphertext
kind return `(0, nil, err)`; prekey-type ciphertext maps to
`PREKEY_BUNDLE`, whisper-type to `CIPHERTEXT`. -/
def buildAuthedMessageToSend (cipher : Address → List Nat → CipherOutcome)
    (recipientAddress : Address) (paddedMessage : List Nat) :
    Nat × List Nat × Option String :=
  let c := cipher recipientAddress paddedMessage
  match c.serialized with
  | none => (0, [], some "cipher serialize failed")
  | some encryptedPayload =>
    if c.messageType = CiphertextMessageTypePreKey then
      (Envelope_PREKEY_BUNDLE, encryptedPayload, none)
    else if c.messageType = CiphertextMessageTypeWhisper then
      (Envelope_CIPHERTEXT, encryptedPayload, none)
    else
      (0, [], some ("Unknown message type: " ++ toString c.messageType))

/-- `buildSSMessageToSend`: a sender-certificate failure returns
`(0, nil, err)`; otherwise the sealed payload with envelope type
`UNIDENTIFIED_SENDER` (the sealed-encrypt error is dropped by the source's
explicit `return envelopeType, encryptedPayload, nil`). -/
def buildSSMessageToSend (env : BuildEnv) (recipientAddress : Address)
    (paddedMessage : List Nat) : Nat × List Nat × Option String :=
  match env.ssCert with
  | Except.error e => (0, [], some e)
  | Except.ok _ =>
    (Envelope_UNIDENTIFIED_SENDER, env.ssEncrypt recipientAddress paddedMessage, none)

/-- The session-resolution prologue of `buildMessagesToSend`: query all
sessions; when the query succeeded but either list is empty, perform the
sentinel prekey fetch (`FetchAndProcessPreKey(..., -1)`) and re-query. -/
def resolvedSessions (env : BuildEnv) (recipientUuid : String) :
    Except String (List Address × List SessionRecord) × List Event :=
  match env.sessions1 with
  | Except.ok (addresses, sessionRecords) =>
    if addresses.length = 0 ∨ sessionRecords.length = 0 then
      (env.sessions2, [Event.fetchPreKey recipientUuid (-1)])
    else
      (Except.ok (addresses, sessionRecords), [])
  | Except.error e => (Except.error e, [])

/-- `checkForErrorWithSessions`: propagate a query error, reject mismatched
lengths, reject empty lists.  (The source's `nil`-slice check is subsumed by
the emptiness check in the list model.) -/
def checkForErrorWithSessions
    (res : Except String (List Address × List SessionRecord)) :
    Except String (List Address × List SessionRecord) :=
  match res with
  | Except.error e => Except.error e
  | Except.ok (addresses, sessionRecords) =>
    if addresses.length ≠ sessionRecords.length then
      Except.error "Mismatched number of addresses and session records"
    else if addresses.length = 0 ∨ sessionRecords.length = 0 then
      Except.error "No addresses or session records"
    else
      Except.ok (addresses, sessionRecords)

/-- `buildMessagesToSend(ctx, d, recipientUuid, content, unauthenticated)`.
`contentBytes` stands for `proto.Marshal(content)` (marshalling of an
in-memory message is modelled as total).  Note the source's error handling
inside the loop: the `error` results of `addPadding` and of
`build*MessageToSend` are assigned to `err` but `err` is overwritten by
the `GetRemoteRegistrationID` read before it is ever checked, so both are
dropped and the envelope is assembled from whatever values came back. -/
def buildMessagesToSend (env : BuildEnv) (recipientUuid : String)
    (contentBytes : List Nat) (unauthenticated : Bool) :
    Except String (List MyMessage) × List Event :=
  let resolved := resolvedSessions env recipientUuid
  match checkForErrorWithSessions resolved.1 with
  | Except.error e => (Except.error e, resolved.2)
  | Except.ok (addresses, sessionRecords) =>
    let messages := (addresses.zip sessionRecords).map (fun pair =>
      let recipientAddress := pair.1
      let sessionRecord := pair.2
      let serializedMessage := contentBytes
      let paddedMessage := (addPadding 3 serializedMessage).toOption.getD []
      let r :=
        if unauthenticated then
          buildSSMessageToSend env recipientAddress paddedMessage
        else
          buildAuthedMessageToSend env.cipher recipientAddress paddedMessage
      { type := r.1
        destinationDeviceID := recipientAddress.deviceId
        destinationRegistrationID := sessionRecord.remoteRegistrationId
        content := base64Encode r.2.1 })
    (Except.ok messages, resolved.2)

/-! ### Retry handlers (`handle409`, `handle410`, `handle428`) -/

/-- Parsed 409 body: an unmarshal failure, else optional `missingDevices`
and `extraDevices` arrays (JSON numbers, hence `Int` after the
`int(x.(float64))` conversion in the source). -/
structure Body409 where
  unmarshalErr : Option String
  missingDevices : Option (List Int)
  extraDevices : Option (List Int)

/-- Parsed 410 body: an unmarshal failure, else an optional `staleDevices`
array. -/
structure Body410 where
  unmarshalErr : Option String
  staleDevices : Option (List Int)

/-- `handle409`: on unmarshal failure return the error; otherwise fetch a
prekey bundle per missing device, then remove the session of each extra
device (`uint(x)` modelled as `Int.toNat`; `NewAddress` and `RemoveSession`
are modelled as total store operations), and return `nil`. -/
def handle409 (recipientUuid : String) (body : Body409) :
    Option String × List Event :=
  match body.unmarshalErr with
  | some e => (some e, [])
  | none =>
    let fetches := (body.missingDevices.getD []).map
      (fun dev => Event.fetchPreKey recipientUuid dev)
    let removals := (body.extraDevices.getD []).map
      (fun dev => Event.removeSession recipientUuid dev.toNat)
    (none, fetches ++ removals)

/-- `handle410`: on unmarshal failure return the error; otherwise, per stale
device, remove its session and then fetch a fresh prekey bundle for it, and
return `nil`. -/
def handle410 (recipientUuid : String) (body : Body410) :
    Option String × List Event :=
  match body.unmarshalErr with
  | some e => (some e, [])
  | none =>
    ((none : Option String), (body.staleDevices.getD []).flatMap
      (fun dev => [Event.removeSession recipientUuid dev.toNat,
                   Event.fetchPreKey recipientUuid dev]))

/-! ### `sendContent` -/

/-- Oracle environment for one attempt of `sendContent`:
`profileKeyFound` is `ProfileKeyForSignalID` returning no error and a
non-nil key; `accessKey` is the `DeriveAccessKey` result (`none` = error);
`build` drives `buildMessagesToSend`; `wsSendErr` is the error of
`SendRequest` on the chosen websocket; `responseStatus` is the correlated
response's status; the remaining fields are the parsed retry-handler
bodies (`handle428` only propagates its unmarshal error and never asks for
a repair). -/
structure AttemptEnv where
  profileKeyFound : Bool
  accessKey : Option (List Nat)
  build : BuildEnv
  wsSendErr : Option String
  responseStatus : Nat
  resp409 : Body409
  resp410 : Body410
  unmarshal428Err : Option String

/-- `useUnidentifiedSender` after the two best-effort selector steps:
true only when the profile key was found and the access key derived. -/
def useUnidOf (a : AttemptEnv) : Bool :=
  a.profileKeyFound && a.accessKey.isSome

/-- The request built by `sendContent`: a `PUT` to
`/v1/messages/{recipientUuid}` whose body is the marshalled `MyMessages`
batch (timestamp, `Online: false`, `Urgent: true`), with the
`unidentified-access-key` header appended exactly on the sealed path. -/
def mkRequest (recipientUuid : String) (messageTimestamp : Int)
    (messages : List MyMessage) (useUnidentifiedSender : Bool)
    (accessKey : Option (List Nat)) : WSRequest :=
  { verb := "PUT"
    path := "/v1/messages/" ++ recipientUuid
    body := { timestamp := messageTimestamp
              online := false
              urgent := true
              messages := messages }
    headers :=
      if useUnidentifiedSender then
        ["unidentified-access-key:" ++ base64Encode (accessKey.getD [])]
      else
        [] }

/-- `retryableStatuses := []uint32{409, 410, 428, 500, 503}`. -/
def retryableStatuses : List Nat := [409, 410, 428, 500, 503]

/-- Result of the non-recursive part of one `sendContent` attempt:
terminal failure, terminal success, or "repairs done, recurse". -/
inductive StepResult where
  | fail (sentUnidentified : Bool) (msg : String) (evs : List Event)
  | success (sentUnidentified : Bool) (evs : List Event)
  | retry (evs : List Event)

def StepResult.eventList : StepResult → List Event
  | StepResult.fail _ _ evs => evs
  | StepResult.success _ evs => evs
  | StepResult.retry evs => evs

/-- The handler dispatch inside the retryable-status branch of
`sendContent`: `handle409` on 409, `handle410` on 410, `handle428` on 428
(modelled by its only effect on the caller, the unmarshal error), and no
local repair for 500/503. -/
def handlerResult (a : AttemptEnv) (recipientUuid : String) :
    Option String × List Event :=
  if a.responseStatus = 409 then handle409 recipientUuid a.resp409
  else if a.responseStatus = 410 then handle410 recipientUuid a.resp410
  else if a.responseStatus = 428 then (a.unmarshal428Err, ([] : List Event))
  else ((none : Option String), ([] : List Event))

/-- One attempt of `sendContent` past the depth guard, following the source
line by line: selector downgrade, `buildMessagesToSend` (an error there is
returned with `sentUnidentified = false`), request construction and
dispatch (a `SendRequest` error is returned with the already-assigned
`sentUnidentified`), then status interpretation: a retryable status runs
its handler (handler error → return `(false, err)`; otherwise recurse), a
non-200 non-retryable status is an "Unexpected status code" failure, and
200 is success. -/
def attemptOutcome (a : AttemptEnv) (recipientUuid : String)
    (messageTimestamp : Int) (contentBytes : List Nat) (retryCount : Nat) :
    StepResult :=
  let useUnidentifiedSender := useUnidOf a
  let built := buildMessagesToSend a.build recipientUuid contentBytes useUnidentifiedSender
  match built.1 with
  | Except.error e => StepResult.fail false e built.2
  | Except.ok messages =>
    let request :=
      mkRequest recipientUuid messageTimestamp messages useUnidentifiedSender a.accessKey
    let evs := built.2 ++ [Event.dispatched retryCount request useUnidentifiedSender]
    match a.wsSendErr with
    | some e => StepResult.fail useUnidentifiedSender e evs
    | none =>
      let status := a.responseStatus
      if retryableStatuses.contains status then
        let handled := handlerResult a recipientUuid
        match handled.1 with
        | some e => StepResult.fail false e (evs ++ handled.2)
        | none => StepResult.retry (evs ++ handled.2)
      else if status ≠ 200 then
        StepResult.fail useUnidentifiedSender
          ("Unexpected status code while sending: " ++ toString status) evs
      else
        StepResult.success useUnidentifiedSender evs

/-- Result of a (possibly recursive) `sendContent` call: the returned
`sentUnidentified` flag, the returned error (`none` = success), the number
of attempts that passed the depth guard, and the effect trace. -/
structure SendOutcome where
  sentUnidentified : Bool
  result : Option String
  attempts : Nat
  events : List Event
deriving Repr, DecidableEq

/-- The terminal outcome of the `retryCount > 3` guard:
`return false, errors.New("Too many retries")` before any effect. -/
def retryExhaustedOutcome : SendOutcome :=
  { sentUnidentified := false
    result := some "Too many retries"
    attempts := 0
    events := [] }

/-- `sendContent` with the recursion carried by an explicit gas argument so
that the definition is structural; the caller `sendContent` below always
supplies `gas = 4 - retryCount`, for which the `gas = 0` branch coincides
exactly with the source's `retryCount > 3` guard and is otherwise
unreachable.  On a retryable status with a successful repair the source
recurses with `retryCount + 1` and returns the recursion's
`sentUnidentified` and error. -/
def sendContentAux (env : Nat → AttemptEnv) (recipientUuid : String)
    (messageTimestamp : Int) (contentBytes : List Nat) :
    Nat → Nat → SendOutcome
  | gas, retryCount =>
    if retryCount > 3 then
      retryExhaustedOutcome
    else
      match gas with
      | 0 => retryExhaustedOutcome
      | g + 1 =>
        match attemptOutcome (env retryCount) recipientUuid messageTimestamp
            contentBytes retryCount with
        | StepResult.fail su msg evs =>
          { sentUnidentified := su, result := some msg, attempts := 1, events := evs }
        | StepResult.success su evs =>
          { sentUnidentified := su, result := none, attempts := 1, events := evs }
        | StepResult.retry evs =>
          let r := sendContentAux env recipientUuid messageTimestamp contentBytes
            g (retryCount + 1)
          { sentUnidentified := r.sentUnidentified
            result := r.result
            attempts := 1 + r.attempts
            events := evs ++ r.events }

/-- `sendContent(ctx, d, recipientUuid, messageTimestamp, content, retryCount)`. -/
def sendContent (env : Nat → AttemptEnv) (recipientUuid : String)
    (messageTimestamp : Int) (contentBytes : List Nat) (retryCount : Nat) :
    SendOutcome :=
  sendContentAux env recipientUuid messageTimestamp contentBytes
    (4 - retryCount) retryCount

/-! ### `SendMessage`, `SendGroupMessage` and self-sync -/

structure SuccessfulSendResult where
  RecipientUuid : String
  Unidentified : Bool
deriving Repr, DecidableEq

structure FailedSendResult where
  RecipientUuid : String
  ErrorMsg : String
deriving Repr, DecidableEq

/-- `SendMessageResult` (`WasSuccessful` plus the embedded success/failure
records of the source struct). -/
structure SendMessageResult where
  WasSuccessful : Bool
  success : Option SuccessfulSendResult
  failed : Option FailedSendResult
deriving Repr, DecidableEq

structure GroupMessageSendResult where
  SuccessfullySentTo : List SuccessfulSendResult
  FailedToSendTo : List FailedSendResult
deriving Repr, DecidableEq

/-- `howManyOtherDevicesDoWeHave`: `AllSessionsForUUID` on the own account
(query error → 0), then count the addresses whose device id differs from
the own device id. -/
def howManyOtherDevicesDoWeHave (ownSessions : Except String (List Address))
    (ownDeviceId : Nat) : Nat :=
  match ownSessions with
  | Except.error _ => 0
  | Except.ok addresses =>
    (addresses.filter (fun a => a.deviceId ≠ ownDeviceId)).length

/-- Oracle environment for one `SendMessage` call: the attempt environments
of the primary send, the own-account session list and device id used by
`howManyOtherDevicesDoWeHave`, and the attempt environments of the
self-sync send. -/
structure SendMessageEnv where
  primaryEnv : Nat → AttemptEnv
  ownSessions : Except String (List Address)
  ownDeviceId : Nat
  syncEnv : Nat → AttemptEnv

/-- `SendMessage(ctx, device, recipientUuid, text)`: primary `sendContent`
at depth 0 (failure → failed result); on success build the success result,
`FetchAndProcessPreKey` for the own account, and, when there are other own
devices, run the self-sync `sendContent` whose error is only logged
(`zlog.Err(selfSendErr)`) — the already-built result is returned
regardless. -/
def SendMessage (env : SendMessageEnv) (aciUuid recipientUuid : String)
    (messageTimestamp : Int) (contentBytes syncContentBytes : List Nat) :
    SendMessageResult :=
  let s := sendContent env.primaryEnv recipientUuid messageTimestamp contentBytes 0
  match s.result with
  | some e =>
    { WasSuccessful := false
      success := none
      failed := some { RecipientUuid := recipientUuid, ErrorMsg := e } }
  | none =>
    let result : SendMessageResult :=
      { WasSuccessful := true
        success := some { RecipientUuid := recipientUuid,
                          Unidentified := s.sentUnidentified }
        failed := none }
    let selfSend :=
      if howManyOtherDevicesDoWeHave env.ownSessions env.ownDeviceId > 0 then
        some (sendContent env.syncEnv aciUuid messageTimestamp syncContentBytes 0)
      else
        none
    -- selfSend.result is only logged in the source, never returned
    let _ := selfSend
    result

/-- Oracle environment for one `SendGroupMessage` call. -/
structure GroupEnv where
  group : Except String (List String)
  memberEnv : String → Nat → AttemptEnv
  ownSessions : Except String (List Address)
  ownDeviceId : Nat
  syncEnv : Nat → AttemptEnv

/-- The member fan-out loop of `SendGroupMessage`: skip the own account,
send to every other member, and append a success or failure record per
member (no early abort). -/
def groupFanout (env : GroupEnv) (aciUuid : String) (messageTimestamp : Int)
    (contentBytes : List Nat) (members : List String) : GroupMessageSendResult :=
  members.foldl
    (fun acc member =>
      if member = aciUuid then
        acc
      else
        let s := sendContent (env.memberEnv member) member messageTimestamp contentBytes 0
        match s.result with
        | some e =>
          { acc with FailedToSendTo :=
              acc.FailedToSendTo ++ [{ RecipientUuid := member, ErrorMsg := e }] }
        | none =>
          { acc with SuccessfullySentTo :=
              acc.SuccessfullySentTo ++ [{ RecipientUuid := member,
                                           Unidentified := s.sentUnidentified }] })
    { SuccessfullySentTo := [], FailedToSendTo := [] }

/-- `SendGroupMessage(ctx, device, groupID, text)`: `RetrieveGroupByID`
failure is returned; otherwise the member fan-out runs, then, when there
are other own devices, the self-sync `sendContent` whose error is only
logged, and the aggregated result is returned with a `nil` error. -/
def SendGroupMessage (env : GroupEnv) (aciUuid : String) (messageTimestamp : Int)
    (contentBytes syncContentBytes : List Nat) :
    Except String GroupMessageSendResult :=
  match env.group with
  | Except.error e => Except.error e
  | Except.ok members =>
    let result := groupFanout env aciUuid messageTimestamp contentBytes members
    let selfSend :=
      if howManyOtherDevicesDoWeHave env.ownSessions env.ownDeviceId > 0 then
        some (sendContent env.syncEnv aciUuid messageTimestamp syncContentBytes 0)
      else
        none
    -- selfSend.result is only logged in the source, never returned
    let _ := selfSend
    Except.ok result

/-! ### Structural lemmas about the send machinery -/

lemma buildMessagesToSend_events (env : BuildEnv) (u : String) (cb : List Nat)
    (un : Bool) : (buildMessagesToSend env u cb un).2 = (resolvedSessions env u).2 := by
  simp only [buildMessagesToSend]
  rcases h : checkForErrorWithSessions (resolvedSessions env u).1 with e | ⟨addrs, recs⟩ <;>
    rfl

lemma resolvedSessions_no_dispatch (env : BuildEnv) (u : String) :
    ∀ e ∈ (resolvedSessions env u).2, isDispatched e = false := by
  unfold resolvedSessions
  split
  · split
    · intro e he
      simp only [List.mem_singleton] at he
      subst he
      rfl
    · intro e he
      simp at he
  · intro e he
    simp at he

lemma handle409_no_dispatch (u : String) (b : Body409) :
    ∀ e ∈ (handle409 u b).2, isDispatched e = false := by
  unfold handle409
  split
  · intro e he
    simp at he
  · intro e he
    simp only [List.mem_append, List.mem_map] at he
    rcases he with ⟨d, _, rfl⟩ | ⟨d, _, rfl⟩ <;> rfl

lemma handle410_no_dispatch (u : String) (b : Body410) :
    ∀ e ∈ (handle410 u b).2, isDispatched e = false := by
  unfold handle410
  split
  · intro e he
    simp at he
  · intro e he
    simp only [List.mem_flatMap] at he
    obtain ⟨d, _, hm⟩ := he
    simp only [List.mem_cons, List.mem_singleton, List.not_mem_nil, or_false] at hm
    rcases hm with rfl | rfl <;> rfl

lemma handlerResult_no_dispatch (a : AttemptEnv) (u : String) :
    ∀ e ∈ (handlerResult a u).2, isDispatched e = false := by
  unfold handlerResult
  split
  · exact handle409_no_dispatch u a.resp409
  · split
    · exact handle410_no_dispatch u a.resp410
    · split
      · intro e he
        simp at he
      · intro e he
        simp at he

/-- Every event produced by one attempt is either a non-dispatch effect or
the single dispatch of this attempt, whose request is `mkRequest` over the
built messages, the selector decision, and this attempt's access key. -/
lemma attemptOutcome_events_spec (a : AttemptEnv) (u : String) (ts : Int)
    (cb : List Nat) (rc : Nat) :
    ∀ e ∈ (attemptOutcome a u ts cb rc).eventList,
      isDispatched e = false ∨
      ∃ msgs, (buildMessagesToSend a.build u cb (useUnidOf a)).1 = Except.ok msgs ∧
        e = Event.dispatched rc (mkRequest u ts msgs (useUnidOf a) a.accessKey)
          (useUnidOf a) := by
  intro e he
  have hbuildevs := buildMessagesToSend_events a.build u cb (useUnidOf a)
  simp only [attemptOutcome] at he
  rcases hb : (buildMessagesToSend a.build u cb (useUnidOf a)).1 with er | msgs <;>
    rw [hb] at he
  · simp only [StepResult.eventList] at he
    rw [hbuildevs] at he
    exact Or.inl (resolvedSessions_no_dispatch a.build u e he)
  · rcases hw : a.wsSendErr with _ | er2 <;> rw [hw] at he
    · simp only at he
      split at he
      · rcases hh : (handlerResult a u).1 with _ | e3 <;> rw [hh] at he <;>
          simp only [StepResult.eventList, List.append_assoc, List.mem_append,
            List.mem_singleton] at he
        · rcases he with h1 | h1 | h1
          · rw [hbuildevs] at h1
            exact Or.inl (resolvedSessions_no_dispatch a.build u e h1)
          · exact Or.inr ⟨msgs, rfl, h1⟩
          · exact Or.inl (handlerResult_no_dispatch a u e h1)
        · rcases he with h1 | h1 | h1
          · rw [hbuildevs] at h1
            exact Or.inl (resolvedSessions_no_dispatch a.build u e h1)
          · exact Or.inr ⟨msgs, rfl, h1⟩
          · exact Or.inl (handlerResult_no_dispatch a u e h1)
      · split at he <;>
          simp only [StepResult.eventList, List.mem_append, List.mem_singleton] at he <;>
          rcases he with h1 | h1
        · rw [hbuildevs] at h1
          exact Or.inl (resolvedSessions_no_dispatch a.build u e h1)
        · exact Or.inr ⟨msgs, rfl, h1⟩
        · rw [hbuildevs] at h1
          exact Or.inl (resolvedSessions_no_dispatch a.build u e h1)
        · exact Or.inr ⟨msgs, rfl, h1⟩
    · simp only [StepResult.eventList, List.mem_append, List.mem_singleton] at he
      rcases he with h1 | h1
      · rw [hbuildevs] at h1
        exact Or.inl (resolvedSessions_no_dispatch a.build u e h1)
      · exact Or.inr ⟨msgs, rfl, h1⟩

lemma attemptOutcome_dispatch_count (a : AttemptEnv) (u : String) (ts : Int)
    (cb : List Nat) (rc : Nat) :
    ((attemptOutcome a u ts cb rc).eventList.filter isDispatched).length ≤ 1 := by
  have hbuildnil :
      (buildMessagesToSend a.build u cb (useUnidOf a)).2.filter isDispatched = [] := by
    rw [buildMessagesToSend_events]
    refine List.filter_eq_nil_iff.mpr (fun e he => ?_)
    simp [resolvedSessions_no_dispatch a.build u e he]
  have hhandnil : (handlerResult a u).2.filter isDispatched = [] := by
    refine List.filter_eq_nil_iff.mpr (fun e he => ?_)
    simp [handlerResult_no_dispatch a u e he]
  simp only [attemptOutcome]
  rcases hb : (buildMessagesToSend a.build u cb (useUnidOf a)).1 with er | msgs
  · simp [StepResult.eventList, hbuildnil]
  · rcases hw : a.wsSendErr with _ | er2
    · simp only
      split
      · rcases hh : (handlerResult a u).1 with _ | e3 <;>
          simp [StepResult.eventList, List.filter_append, hbuildnil, hhandnil, isDispatched]
      · split <;>
          simp [StepResult.eventList, List.filter_append, hbuildnil, isDispatched]
    · simp [StepResult.eventList, List.filter_append, hbuildnil, isDispatched]

lemma sendContentAux_zero (env : Nat → AttemptEnv) (u : String) (ts : Int)
    (cb : List Nat) (rc : Nat) :
    sendContentAux env u ts cb 0 rc = retryExhaustedOutcome := by
  simp only [sendContentAux]
  split <;> rfl

lemma sendContentAux_succ (env : Nat → AttemptEnv) (u : String) (ts : Int)
    (cb : List Nat) (g rc : Nat) :
    sendContentAux env u ts cb (g + 1) rc =
      if rc > 3 then retryExhaustedOutcome
      else
        match attemptOutcome (env rc) u ts cb rc with
        | StepResult.fail su msg evs =>
          { sentUnidentified := su, result := some msg, attempts := 1, events := evs }
        | StepResult.success su evs =>
          { sentUnidentified := su, result := none, attempts := 1, events := evs }
        | StepResult.retry evs =>
          let r := sendContentAux env u ts cb g (rc + 1)
          { sentUnidentified := r.sentUnidentified
            result := r.result
            attempts := 1 + r.attempts
            events := evs ++ r.events } := rfl

lemma sendContentAux_attempts_le (env : Nat → AttemptEnv) (u : String) (ts : Int)
    (cb : List Nat) :
    ∀ gas rc, (sendContentAux env u ts cb gas rc).attempts ≤ gas ∧
      ((sendContentAux env u ts cb gas rc).events.filter isDispatched).length ≤
        (sendContentAux env u ts cb gas rc).attempts := by
  intro gas
  induction gas with
  | zero =>
    intro rc
    rw [sendContentAux_zero]
    exact ⟨Nat.le_refl _, by simp [retryExhaustedOutcome]⟩
  | succ g ih =>
    intro rc
    rw [sendContentAux_succ]
    by_cases h3 : rc > 3
    · rw [if_pos h3]
      exact ⟨by simp [retryExhaustedOutcome], by simp [retryExhaustedOutcome]⟩
    · rw [if_neg h3]
      have hc := attemptOutcome_dispatch_count (env rc) u ts cb rc
      rcases ho : attemptOutcome (env rc) u ts cb rc with ⟨su, msg, evs⟩ | ⟨su, evs⟩ | evs <;>
        rw [ho] at hc <;> simp only [StepResult.eventList] at hc <;> dsimp only
      · exact ⟨by omega, hc⟩
      · exact ⟨by omega, hc⟩
      · refine ⟨?_, ?_⟩
        · have h1 := (ih (rc + 1)).1
          omega
        · have h2 := (ih (rc + 1)).2
          rw [List.filter_append, List.length_append]
          omega

/-- Claim C1: for any sequence of statuses, the total number of send
attempts for one logical send (entered at depth 0) is at most 4, and so is
the number of transport dispatches in its effect trace; a call entered with
depth greater than 3 terminates immediately with the "Too many retries"
failure, performing no effect at all (no dispatch, no status
interpretation). -/
theorem sendContent_retry_depth (env : Nat → AttemptEnv) (u : String) (ts : Int)
    (cb : List Nat) :
    (sendContent env u ts cb 0).attempts ≤ 4 ∧
    ((sendContent env u ts cb 0).events.filter isDispatched).length ≤ 4 ∧
    ∀ d, 3 < d → sendContent env u ts cb d =
      { sentUnidentified := false, result := some "Too many retries",
        attempts := 0, events := [] } := by
  have h := sendContentAux_attempts_le env u ts cb 4 0
  refine ⟨h.1, le_trans h.2 h.1, ?_⟩
  intro d hd
  have h0 : 4 - d = 0 := by omega
  unfold sendContent
  rw [h0, sendContentAux_zero]
  rfl

/-- Witness for `sendContent_retry_depth`: a concrete environment that
always answers 503 (retryable, no repair), evaluated at depth 0 and at
depth 4. -/
def witnessBuildEnv : BuildEnv :=
  { sessions1 := Except.ok ([{ uuid := "r", deviceId := 1 }],
      [{ remoteRegistrationId := 7 }])
    sessions2 := Except.ok ([], [])
    cipher := fun _ _ => { serialized := some [9], messageType := 2 }
    ssCert := Except.ok ()
    ssEncrypt := fun _ bs => bs }

def witnessAttemptEnv503 : AttemptEnv :=
  { profileKeyFound := false
    accessKey := none
    build := witnessBuildEnv
    wsSendErr := none
    responseStatus := 503
    resp409 := { unmarshalErr := none, missingDevices := none, extraDevices := none }
    resp410 := { unmarshalErr := none, staleDevices := none }
    unmarshal428Err := none }

theorem sendContent_retry_depth_witness :
    (sendContent (fun _ => witnessAttemptEnv503) "r" 0 [1] 0).attempts ≤ 4 ∧
    ((sendContent (fun _ => witnessAttemptEnv503) "r" 0 [1] 0).events.filter
      isDispatched).length ≤ 4 ∧
    sendContent (fun _ => witnessAttemptEnv503) "r" 0 [1] 4 =
      { sentUnidentified := false, result := some "Too many retries",
        attempts := 0, events := [] } :=
  ⟨(sendContent_retry_depth (fun _ => witnessAttemptEnv503) "r" 0 [1]).1,
   (sendContent_retry_depth (fun _ => witnessAttemptEnv503) "r" 0 [1]).2.1,
   (sendContent_retry_depth (fun _ => witnessAttemptEnv503) "r" 0 [1]).2.2 4
     (by decide)⟩

lemma sendContent_on_fail (env : Nat → AttemptEnv) (u : String) (ts : Int)
    (cb : List Nat) (d : Nat) (hd : d ≤ 3) (su : Bool) (msg : String)
    (evs : List Event)
    (ho : attemptOutcome (env d) u ts cb d = StepResult.fail su msg evs) :
    sendContent env u ts cb d =
      { sentUnidentified := su, result := some msg, attempts := 1, events := evs } := by
  have h3 : ¬ d > 3 := by omega
  have h4 : 4 - d = (4 - (d + 1)) + 1 := by omega
  unfold sendContent
  rw [h4, sendContentAux_succ, if_neg h3, ho]

lemma sendContent_on_success (env : Nat → AttemptEnv) (u : String) (ts : Int)
    (cb : List Nat) (d : Nat) (hd : d ≤ 3) (su : Bool) (evs : List Event)
    (ho : attemptOutcome (env d) u ts cb d = StepResult.success su evs) :
    sendContent env u ts cb d =
      { sentUnidentified := su, result := none, attempts := 1, events := evs } := by
  have h3 : ¬ d > 3 := by omega
  have h4 : 4 - d = (4 - (d + 1)) + 1 := by omega
  unfold sendContent
  rw [h4, sendContentAux_succ, if_neg h3, ho]

lemma sendContent_on_retry (env : Nat → AttemptEnv) (u : String) (ts : Int)
    (cb : List Nat) (d : Nat) (hd : d ≤ 3) (evs : List Event)
    (ho : attemptOutcome (env d) u ts cb d = StepResult.retry evs) :
    sendContent env u ts cb d =
      { sentUnidentified := (sendContent env u ts cb (d + 1)).sentUnidentified
        result := (sendContent env u ts cb (d + 1)).result
        attempts := 1 + (sendContent env u ts cb (d + 1)).attempts
        events := evs ++ (sendContent env u ts cb (d + 1)).events } := by
  have h3 : ¬ d > 3 := by omega
  have h4 : 4 - d = (4 - (d + 1)) + 1 := by omega
  unfold sendContent
  rw [h4, sendContentAux_succ, if_neg h3, ho]

/-- When the build succeeds and the websocket send does not error, the
attempt outcome is decided by the response status alone. -/
lemma attemptOutcome_dispatch_eq (a : AttemptEnv) (u : String) (ts : Int)
    (cb : List Nat) (rc : Nat) (msgs : List MyMessage)
    (hb : (buildMessagesToSend a.build u cb (useUnidOf a)).1 = Except.ok msgs)
    (hw : a.wsSendErr = none) :
    attemptOutcome a u ts cb rc =
      (let evs := (buildMessagesToSend a.build u cb (useUnidOf a)).2 ++
        [Event.dispatched rc (mkRequest u ts msgs (useUnidOf a) a.accessKey)
          (useUnidOf a)]
      if retryableStatuses.contains a.responseStatus then
        match (handlerResult a u).1 with
        | some e => StepResult.fail false e (evs ++ (handlerResult a u).2)
        | none => StepResult.retry (evs ++ (handlerResult a u).2)
      else if a.responseStatus ≠ 200 then
        StepResult.fail (useUnidOf a)
          ("Unexpected status code while sending: " ++ toString a.responseStatus) evs
      else
        StepResult.success (useUnidOf a) evs) := by
  simp only [attemptOutcome, hb, hw]

/-- Claim C3: when the profile-key lookup fails (or returns no key) or the
access-key derivation fails, the send is silently downgraded: the selector
yields `sealed = false`, the dispatch goes out on the authenticated
connection (no `unidentified-access-key` header), and — when the rest of
the attempt succeeds — the overall send succeeds with no error surfaced
from the profile-key/access-key steps. -/
theorem selector_silent_downgrade (env : Nat → AttemptEnv) (u : String) (ts : Int)
    (cb : List Nat) (msgs : List MyMessage)
    (hpk : (env 0).profileKeyFound = false ∨ (env 0).accessKey = none)
    (hb : (buildMessagesToSend (env 0).build u cb false).1 = Except.ok msgs)
    (hw : (env 0).wsSendErr = none)
    (hs : (env 0).responseStatus = 200) :
    useUnidOf (env 0) = false ∧
    sendContent env u ts cb 0 =
      { sentUnidentified := false, result := none, attempts := 1,
        events := (buildMessagesToSend (env 0).build u cb false).2 ++
          [Event.dispatched 0 (mkRequest u ts msgs false (env 0).accessKey) false] } ∧
    (mkRequest u ts msgs false (env 0).accessKey).headers = [] := by
  have hu : useUnidOf (env 0) = false := by
    unfold useUnidOf
    rcases hpk with h | h <;> simp [h]
  have hb2 : (buildMessagesToSend (env 0).build u cb (useUnidOf (env 0))).1
      = Except.ok msgs := by rw [hu]; exact hb
  have ho := attemptOutcome_dispatch_eq (env 0) u ts cb 0 msgs hb2 hw
  rw [hs] at ho
  have hno : retryableStatuses.contains 200 = false := by decide
  rw [hno] at ho
  simp only [Bool.false_eq_true, if_false, ne_eq, not_true_eq_false,
    reduceIte] at ho
  rw [hu] at ho
  refine ⟨hu, ?_, by simp [mkRequest]⟩
  exact sendContent_on_success env u ts cb 0 (by omega) false _ ho

def witnessAttemptEnv200 : AttemptEnv :=
  { witnessAttemptEnv503 with responseStatus := 200 }

/-- The single envelope built from `witnessBuildEnv` on the authenticated
path: whisper ciphertext, device 1, registration id 7. -/
def witnessMsg : MyMessage :=
  { type := 1
    destinationDeviceID := 1
    destinationRegistrationID := 7
    content := base64Encode [9] }

/-- Witness for `selector_silent_downgrade`: a concrete environment whose
profile-key lookup fails and whose dispatch returns 200. -/
theorem selector_silent_downgrade_witness :
    useUnidOf witnessAttemptEnv200 = false ∧
    sendContent (fun _ => witnessAttemptEnv200) "r" 0 [1] 0 =
      { sentUnidentified := false, result := none, attempts := 1,
        events := (buildMessagesToSend witnessAttemptEnv200.build "r" [1] false).2 ++
          [Event.dispatched 0 (mkRequest "r" 0
            [witnessMsg] false witnessAttemptEnv200.accessKey)
            false] } ∧
    (mkRequest "r" 0 [witnessMsg] false
      witnessAttemptEnv200.accessKey).headers = [] :=
  selector_silent_downgrade (fun _ => witnessAttemptEnv200) "r" 0 [1]
    [witnessMsg]
    (Or.inl rfl) rfl rfl rfl

/-- Claim C5: on a 409 response whose body parses, the engine performs
exactly one prekey-bundle fetch per listed missing device id, then exactly
one session removal per listed extra device id, and only after these
repairs recurses into the full send at depth `d + 1`, whose outcome it
returns. -/
theorem handle409_repairs_then_recurse (env : Nat → AttemptEnv) (u : String)
    (ts : Int) (cb : List Nat) (d : Nat) (msgs : List MyMessage) (hd : d ≤ 3)
    (hb : (buildMessagesToSend (env d).build u cb (useUnidOf (env d))).1
      = Except.ok msgs)
    (hw : (env d).wsSendErr = none)
    (hs : (env d).responseStatus = 409)
    (hm : (env d).resp409.unmarshalErr = none) :
    sendContent env u ts cb d =
      { sentUnidentified := (sendContent env u ts cb (d + 1)).sentUnidentified
        result := (sendContent env u ts cb (d + 1)).result
        attempts := 1 + (sendContent env u ts cb (d + 1)).attempts
        events :=
          ((buildMessagesToSend (env d).build u cb (useUnidOf (env d))).2 ++
            [Event.dispatched d
              (mkRequest u ts msgs (useUnidOf (env d)) (env d).accessKey)
              (useUnidOf (env d))] ++
            (((env d).resp409.missingDevices.getD []).map
              (fun dev => Event.fetchPreKey u dev) ++
             ((env d).resp409.extraDevices.getD []).map
              (fun dev => Event.removeSession u dev.toNat))) ++
          (sendContent env u ts cb (d + 1)).events } := by
  have hh : handlerResult (env d) u =
      ((none : Option String),
        ((env d).resp409.missingDevices.getD []).map
          (fun dev => Event.fetchPreKey u dev) ++
        ((env d).resp409.extraDevices.getD []).map
          (fun dev => Event.removeSession u dev.toNat)) := by
    simp [handlerResult, hs, handle409, hm]
  have hcontains : retryableStatuses.contains (env d).responseStatus = true := by
    rw [hs]
    decide
  have ho := attemptOutcome_dispatch_eq (env d) u ts cb d msgs hb hw
  simp only [hcontains, hh, if_true] at ho
  exact sendContent_on_retry env u ts cb d hd _ ho

def witnessAttemptEnv409 : AttemptEnv :=
  { witnessAttemptEnv200 with
      responseStatus := 409
      resp409 := { unmarshalErr := none, missingDevices := some [2],
                   extraDevices := some [5] } }

def witnessEnv409 : Nat → AttemptEnv :=
  fun rc => if rc = 0 then witnessAttemptEnv409 else witnessAttemptEnv200

/-- Witness for `handle409_repairs_then_recurse` on the spec's example body
`{"missingDevices":[2],"extraDevices":[5]}`. -/
theorem handle409_repairs_then_recurse_witness :
    sendContent witnessEnv409 "r" 0 [1] 0 =
      { sentUnidentified := (sendContent witnessEnv409 "r" 0 [1] 1).sentUnidentified
        result := (sendContent witnessEnv409 "r" 0 [1] 1).result
        attempts := 1 + (sendContent witnessEnv409 "r" 0 [1] 1).attempts
        events :=
          ((buildMessagesToSend (witnessEnv409 0).build "r" [1]
              (useUnidOf (witnessEnv409 0))).2 ++
            [Event.dispatched 0
              (mkRequest "r" 0
                [witnessMsg]
                (useUnidOf (witnessEnv409 0)) (witnessEnv409 0).accessKey)
              (useUnidOf (witnessEnv409 0))] ++
            (((witnessEnv409 0).resp409.missingDevices.getD []).map
              (fun dev => Event.fetchPreKey "r" dev) ++
             ((witnessEnv409 0).resp409.extraDevices.getD []).map
              (fun dev => Event.removeSession "r" dev.toNat))) ++
          (sendContent witnessEnv409 "r" 0 [1] 1).events } :=
  handle409_repairs_then_recurse witnessEnv409 "r" 0 [1] 0
    [witnessMsg]
    (by omega) rfl rfl rfl rfl

/-- Claim C6: on a 410 response whose body parses, the engine, per listed
stale device id in order, first removes that device's session record and
then fetches a fresh prekey bundle for it, and only afterwards recurses
into the full send at depth `d + 1`, whose outcome it returns. -/
theorem handle410_repairs_then_recurse (env : Nat → AttemptEnv) (u : String)
    (ts : Int) (cb : List Nat) (d : Nat) (msgs : List MyMessage) (hd : d ≤ 3)
    (hb : (buildMessagesToSend (env d).build u cb (useUnidOf (env d))).1
      = Except.ok msgs)
    (hw : (env d).wsSendErr = none)
    (hs : (env d).responseStatus = 410)
    (hm : (env d).resp410.unmarshalErr = none) :
    sendContent env u ts cb d =
      { sentUnidentified := (sendContent env u ts cb (d + 1)).sentUnidentified
        result := (sendContent env u ts cb (d + 1)).result
        attempts := 1 + (sendContent env u ts cb (d + 1)).attempts
        events :=
          ((buildMessagesToSend (env d).build u cb (useUnidOf (env d))).2 ++
            [Event.dispatched d
              (mkRequest u ts msgs (useUnidOf (env d)) (env d).accessKey)
              (useUnidOf (env d))] ++
            ((env d).resp410.staleDevices.getD []).flatMap
              (fun dev => [Event.removeSession u dev.toNat,
                           Event.fetchPreKey u dev])) ++
          (sendContent env u ts cb (d + 1)).events } := by
  have hh : handlerResult (env d) u =
      ((none : Option String),
        ((env d).resp410.staleDevices.getD []).flatMap
          (fun dev => [Event.removeSession u dev.toNat,
                       Event.fetchPreKey u dev])) := by
    simp [handlerResult, hs, handle410, hm]
  have hcontains : retryableStatuses.contains (env d).responseStatus = true := by
    rw [hs]
    decide
  have ho := attemptOutcome_dispatch_eq (env d) u ts cb d msgs hb hw
  simp only [hcontains, hh, if_true] at ho
  exact sendContent_on_retry env u ts cb d hd _ ho

def witnessAttemptEnv410 : AttemptEnv :=
  { witnessAttemptEnv200 with
      responseStatus := 410
      resp410 := { unmarshalErr := none, staleDevices := some [3] } }

def witnessEnv410 : Nat → AttemptEnv :=
  fun rc => if rc = 0 then witnessAttemptEnv410 else witnessAttemptEnv200

/-- Witness for `handle410_repairs_then_recurse` on the spec's example body
`{"staleDevices":[3]}`. -/
theorem handle410_repairs_then_recurse_witness :
    sendContent witnessEnv410 "r" 0 [1] 0 =
      { sentUnidentified := (sendContent witnessEnv410 "r" 0 [1] 1).sentUnidentified
        result := (sendContent witnessEnv410 "r" 0 [1] 1).result
        attempts := 1 + (sendContent witnessEnv410 "r" 0 [1] 1).attempts
        events :=
          ((buildMessagesToSend (witnessEnv410 0).build "r" [1]
              (useUnidOf (witnessEnv410 0))).2 ++
            [Event.dispatched 0
              (mkRequest "r" 0
                [witnessMsg]
                (useUnidOf (witnessEnv410 0)) (witnessEnv410 0).accessKey)
              (useUnidOf (witnessEnv410 0))] ++
            ((witnessEnv410 0).resp410.staleDevices.getD []).flatMap
              (fun dev => [Event.removeSession "r" dev.toNat,
                           Event.fetchPreKey "r" dev])) ++
          (sendContent witnessEnv410 "r" 0 [1] 1).events } :=
  handle410_repairs_then_recurse witnessEnv410 "r" 0 [1] 0
    [witnessMsg]
    (by omega) rfl rfl rfl rfl

/-- The envelope assembled for one (address, session record) pair inside
the loop of `buildMessagesToSend` (the dropped error slot `r.2.2` is the
shadowed `err` of the source). -/
def envelopeOfPair (env : BuildEnv) (cb : List Nat) (un : Bool)
    (pair : Address × SessionRecord) : MyMessage :=
  let r :=
    if un then
      buildSSMessageToSend env pair.1 ((addPadding 3 cb).toOption.getD [])
    else
      buildAuthedMessageToSend env.cipher pair.1 ((addPadding 3 cb).toOption.getD [])
  { type := r.1
    destinationDeviceID := pair.1.deviceId
    destinationRegistrationID := pair.2.remoteRegistrationId
    content := base64Encode r.2.1 }

lemma buildMessagesToSend_fst_error (env : BuildEnv) (u : String) (cb : List Nat)
    (un : Bool) (e : String)
    (hc : checkForErrorWithSessions (resolvedSessions env u).1 = Except.error e) :
    (buildMessagesToSend env u cb un).1 = Except.error e := by
  simp only [buildMessagesToSend, hc]

lemma buildMessagesToSend_fst_ok (env : BuildEnv) (u : String) (cb : List Nat)
    (un : Bool) (addrs : List Address) (recs : List SessionRecord)
    (hc : checkForErrorWithSessions (resolvedSessions env u).1
      = Except.ok (addrs, recs)) :
    (buildMessagesToSend env u cb un).1
      = Except.ok ((addrs.zip recs).map (envelopeOfPair env cb un)) := by
  simp only [buildMessagesToSend, hc]
  rfl

lemma zip_map_envelope_device (env : BuildEnv) (cb : List Nat) (un : Bool)
    (addrs : List Address) (recs : List SessionRecord)
    (hlen : addrs.length = recs.length) :
    ((addrs.zip recs).map (envelopeOfPair env cb un)).map
      (fun m => m.destinationDeviceID) = addrs.map (fun a => a.deviceId) := by
  rw [List.map_map]
  have hfst := List.map_fst_zip addrs recs (le_of_eq hlen)
  calc (addrs.zip recs).map ((fun m => m.destinationDeviceID) ∘ envelopeOfPair env cb un)
      = ((addrs.zip recs).map Prod.fst).map (fun a => a.deviceId) := by
        rw [List.map_map]
        rfl
    _ = addrs.map (fun a => a.deviceId) := by rw [hfst]

/-- Claim C7: with non-empty resolved address and session-record lists of
equal length N, the builder produces exactly N envelopes, one per
(address, session record) pair in order, whose destination device ids are
exactly the address device ids (hence distinct when the addresses are, and
always drawn from the address set); an empty or mismatched resolution is a
fatal error and no envelopes are produced. -/
theorem build_envelopes_per_device (env : BuildEnv) (u : String) (cb : List Nat)
    (un : Bool) :
    (∀ addresses sessionRecords,
      (resolvedSessions env u).1 = Except.ok (addresses, sessionRecords) →
      addresses.length = sessionRecords.length → addresses ≠ [] →
      ∃ msgs, (buildMessagesToSend env u cb un).1 = Except.ok msgs ∧
        msgs.length = addresses.length ∧
        msgs.map (fun m => m.destinationDeviceID)
          = addresses.map (fun a => a.deviceId) ∧
        ((addresses.map (fun a => a.deviceId)).Nodup →
          (msgs.map (fun m => m.destinationDeviceID)).Nodup) ∧
        ∀ m ∈ msgs, m.destinationDeviceID ∈ addresses.map (fun a => a.deviceId)) ∧
    (∀ addresses sessionRecords,
      (resolvedSessions env u).1 = Except.ok (addresses, sessionRecords) →
      (addresses.length ≠ sessionRecords.length ∨ addresses = [] ∨
        sessionRecords = []) →
      ∃ e, (buildMessagesToSend env u cb un).1 = Except.error e) ∧
    (∀ e, (resolvedSessions env u).1 = Except.error e →
      (buildMessagesToSend env u cb un).1 = Except.error e) := by
  refine ⟨?_, ?_, ?_⟩
  · intro addrs recs hres hlen hne
    have hc : checkForErrorWithSessions (resolvedSessions env u).1
        = Except.ok (addrs, recs) := by
      rw [hres]
      have hn0 : addrs.length ≠ 0 := fun h => hne (List.length_eq_zero.mp h)
      simp only [checkForErrorWithSessions]
      rw [if_neg (by omega), if_neg (by omega)]
    have hmap := zip_map_envelope_device env cb un addrs recs hlen
    refine ⟨_, buildMessagesToSend_fst_ok env u cb un addrs recs hc, ?_, hmap, ?_, ?_⟩
    · simp [List.length_zip, hlen]
    · intro hnd
      rw [hmap]
      exact hnd
    · intro m hm
      rw [← hmap]
      exact List.mem_map_of_mem _ hm
  · intro addrs recs hres hbad
    have hc : ∃ e, checkForErrorWithSessions (resolvedSessions env u).1
        = Except.error e := by
      rw [hres]
      simp only [checkForErrorWithSessions]
      by_cases hl : addrs.length = recs.length
      · have hz : addrs.length = 0 ∨ recs.length = 0 := by
          rcases hbad with h | h | h
          · exact absurd hl h
          · exact Or.inl (by simp [h])
          · exact Or.inr (by simp [h])
        rw [if_neg (by omega), if_pos (by omega)]
        exact ⟨_, rfl⟩
      · rw [if_pos hl]
        exact ⟨_, rfl⟩
    obtain ⟨e, hc⟩ := hc
    exact ⟨e, buildMessagesToSend_fst_error env u cb un e hc⟩
  · intro e hres
    have hc : checkForErrorWithSessions (resolvedSessions env u).1
        = Except.error e := by
      rw [hres]
      rfl
    exact buildMessagesToSend_fst_error env u cb un e hc

def witnessAddrs2 : List Address :=
  [{ uuid := "r", deviceId := 1 }, { uuid := "r", deviceId := 2 }]

def witnessRecs2 : List SessionRecord :=
  [{ remoteRegistrationId := 7 }, { remoteRegistrationId := 8 }]

def witnessRecs1 : List SessionRecord := [{ remoteRegistrationId := 7 }]

def witnessBuildEnv2 : BuildEnv :=
  { witnessBuildEnv with sessions1 := Except.ok (witnessAddrs2, witnessRecs2) }

def witnessBuildEnvMismatch : BuildEnv :=
  { witnessBuildEnv with sessions1 := Except.ok (witnessAddrs2, witnessRecs1) }

/-- Witness for `build_envelopes_per_device`: two devices with two sessions
on the happy path; a mismatched pair on the failure path. -/
theorem build_envelopes_per_device_witness :
    (∃ msgs, (buildMessagesToSend witnessBuildEnv2 "r" [1] false).1
        = Except.ok msgs ∧
      msgs.length = witnessAddrs2.length ∧
      msgs.map (fun m => m.destinationDeviceID)
        = witnessAddrs2.map (fun a => a.deviceId) ∧
      ((witnessAddrs2.map (fun a => a.deviceId)).Nodup →
        (msgs.map (fun m => m.destinationDeviceID)).Nodup) ∧
      ∀ m ∈ msgs, m.destinationDeviceID ∈
        witnessAddrs2.map (fun a => a.deviceId)) ∧
    (∃ e, (buildMessagesToSend witnessBuildEnvMismatch "r" [1] false).1
      = Except.error e) :=
  ⟨(build_envelopes_per_device witnessBuildEnv2 "r" [1] false).1
      witnessAddrs2 witnessRecs2 rfl rfl (by decide),
   (build_envelopes_per_device witnessBuildEnvMismatch "r" [1] false).2.1
      witnessAddrs2 witnessRecs1 rfl (Or.inl (by decide))⟩

lemma buildMessagesToSend_content (env : BuildEnv) (u : String) (cb : List Nat)
    (un : Bool) (msgs : List MyMessage)
    (hb : (buildMessagesToSend env u cb un).1 = Except.ok msgs) :
    ∀ m ∈ msgs, ∃ bs, m.content = base64Encode bs := by
  rcases hc : checkForErrorWithSessions (resolvedSessions env u).1 with e | ⟨addrs, recs⟩
  · rw [buildMessagesToSend_fst_error env u cb un e hc] at hb
    simp at hb
  · rw [buildMessagesToSend_fst_ok env u cb un addrs recs hc] at hb
    have hmsgs : msgs = (addrs.zip recs).map (envelopeOfPair env cb un) := by
      injection hb with h
      exact h.symm
    subst hmsgs
    intro m hm
    rw [List.mem_map] at hm
    obtain ⟨pair, _, rfl⟩ := hm
    exact ⟨_, rfl⟩

/-- Every event in a full `sendContent` trace is either a non-dispatch
effect or a dispatch whose request is `mkRequest` over that attempt's built
messages, selector decision and access key. -/
lemma sendContentAux_events_spec (env : Nat → AttemptEnv) (u : String) (ts : Int)
    (cb : List Nat) :
    ∀ gas rc, ∀ e ∈ (sendContentAux env u ts cb gas rc).events,
      isDispatched e = false ∨
      ∃ d msgs,
        (buildMessagesToSend (env d).build u cb (useUnidOf (env d))).1
          = Except.ok msgs ∧
        e = Event.dispatched d
          (mkRequest u ts msgs (useUnidOf (env d)) (env d).accessKey)
          (useUnidOf (env d)) := by
  intro gas
  induction gas with
  | zero =>
    intro rc e he
    rw [sendContentAux_zero] at he
    simp [retryExhaustedOutcome] at he
  | succ g ih =>
    intro rc e he
    rw [sendContentAux_succ] at he
    by_cases h3 : rc > 3
    · rw [if_pos h3] at he
      simp [retryExhaustedOutcome] at he
    · rw [if_neg h3] at he
      have hspec := attemptOutcome_events_spec (env rc) u ts cb rc
      rcases ho : attemptOutcome (env rc) u ts cb rc with ⟨su, msg, evs⟩ | ⟨su, evs⟩ | evs <;>
        rw [ho] at he hspec <;>
        simp only [StepResult.eventList] at hspec <;> dsimp only at he
      · rcases hspec e he with h | ⟨msgs, hb, heq⟩
        · exact Or.inl h
        · exact Or.inr ⟨rc, msgs, hb, heq⟩
      · rcases hspec e he with h | ⟨msgs, hb, heq⟩
        · exact Or.inl h
        · exact Or.inr ⟨rc, msgs, hb, heq⟩
      · rw [List.mem_append] at he
        rcases he with he | he
        · rcases hspec e he with h | ⟨msgs, hb, heq⟩
          · exact Or.inl h
          · exact Or.inr ⟨rc, msgs, hb, heq⟩
        · exact ih (rc + 1) e he

/-- Claim C9: every dispatched batch is a `PUT` to
`/v1/messages/{recipient}` whose body carries `online = false`,
`urgent = true`, the send timestamp, and message entries with base64
content; the `unidentified-access-key` header (the base64 access key of the
dispatching attempt) is present exactly on sealed dispatches. -/
theorem dispatch_wire_contract (env : Nat → AttemptEnv) (u : String) (ts : Int)
    (cb : List Nat) (rc : Nat) :
    ∀ e ∈ (sendContent env u ts cb rc).events, ∀ d req s,
      e = Event.dispatched d req s →
      req.verb = "PUT" ∧
      req.path = "/v1/messages/" ++ u ∧
      req.body.online = false ∧
      req.body.urgent = true ∧
      req.body.timestamp = ts ∧
      (∀ m ∈ req.body.messages, ∃ bs, m.content = base64Encode bs) ∧
      s = useUnidOf (env d) ∧
      req.headers = (if s then
        ["unidentified-access-key:" ++ base64Encode ((env d).accessKey.getD [])]
      else []) := by
  intro e he d req s heq
  have h := sendContentAux_events_spec env u ts cb (4 - rc) rc e he
  rcases h with h | ⟨d2, msgs, hb, heq2⟩
  · rw [heq] at h
    simp [isDispatched] at h
  · rw [heq] at heq2
    injection heq2 with h1 h2 h3
    subst h1
    subst h2
    subst h3
    refine ⟨rfl, rfl, rfl, rfl, rfl, ?_, rfl, ?_⟩
    · exact buildMessagesToSend_content (env d).build u cb (useUnidOf (env d)) msgs hb
    · rcases hu : useUnidOf (env d) with _ | _ <;> simp [mkRequest, hu]

/-- Witness for `dispatch_wire_contract`: the dispatch event of the
authenticated happy-path environment. -/
theorem dispatch_wire_contract_witness :
    ((mkRequest "r" 0 [witnessMsg] false none).verb = "PUT" ∧
     (mkRequest "r" 0 [witnessMsg] false none).path = "/v1/messages/" ++ "r" ∧
     (mkRequest "r" 0 [witnessMsg] false none).body.online = false ∧
     (mkRequest "r" 0 [witnessMsg] false none).body.urgent = true ∧
     (mkRequest "r" 0 [witnessMsg] false none).body.timestamp = 0 ∧
     (∀ m ∈ (mkRequest "r" 0 [witnessMsg] false none).body.messages,
       ∃ bs, m.content = base64Encode bs) ∧
     false = useUnidOf ((fun _ => witnessAttemptEnv200) 0) ∧
     (mkRequest "r" 0 [witnessMsg] false none).headers = (if false then
       ["unidentified-access-key:" ++
         base64Encode (((fun _ => witnessAttemptEnv200) 0).accessKey.getD [])]
     else [])) :=
  dispatch_wire_contract (fun _ => witnessAttemptEnv200) "r" 0 [1] 0
    (Event.dispatched 0 (mkRequest "r" 0 [witnessMsg] false none) false)
    (by decide) 0 (mkRequest "r" 0 [witnessMsg] false none) false rfl

/-! ### Claim C4: the cipher error is dropped by `buildMessagesToSend` -/

/-- A cipher that reports an unknown ciphertext kind (8, the sender-key
kind, is neither prekey (3) nor whisper (2)). -/
def c4CipherUnknown : Address → List Nat → CipherOutcome :=
  fun _ _ => { serialized := some [5, 6], messageType := 8 }

def c4BuildEnv : BuildEnv :=
  { witnessBuildEnv with cipher := c4CipherUnknown }

def c4AttemptEnv : AttemptEnv :=
  { witnessAttemptEnv200 with build := c4BuildEnv }

/-- The malformed envelope that the error-dropping loop assembles: type 0
(the zero value), empty content. -/
def c4BogusEnvelope : MyMessage :=
  { type := 0
    destinationDeviceID := 1
    destinationRegistrationID := 7
    content := base64Encode [] }

/-- Claim C4 is violated by the code (code bug): `buildAuthedMessageToSend`
does report the unknown-ciphertext-kind error, but inside the loop of
`buildMessagesToSend` the `err` holding it is overwritten by the
`GetRemoteRegistrationID` read before it is ever checked, so the error is
dropped, an envelope with type 0 and empty base64 content is assembled,
and the whole send succeeds instead of failing. -/
theorem cipher_error_dropped :
    (buildAuthedMessageToSend c4CipherUnknown { uuid := "r", deviceId := 1 }
        ((addPadding 3 [1]).toOption.getD [])).2.2
      = some ("Unknown message type: " ++ toString 8) ∧
    (buildMessagesToSend c4BuildEnv "r" [1] false).1
      = Except.ok [c4BogusEnvelope] ∧
    base64Encode [] = "" ∧
    (sendContent (fun _ => c4AttemptEnv) "r" 0 [1] 0).result = none :=
  ⟨rfl, rfl, rfl, rfl⟩

/-! ### Claim C8: self-sync failures are swallowed -/

/-- Claim C8: when the primary 1:1 send succeeds, the returned result
reports success regardless of the self-sync outcome (in particular when the
self-sync send fails); likewise a group send returns the member fan-out
result with a `nil` error regardless of a failing self-sync. -/
theorem selfsync_failure_swallowed (env : SendMessageEnv) (aci r : String)
    (ts : Int) (cb scb : List Nat) (genv : GroupEnv) (gts : Int)
    (gcb gscb : List Nat) (members : List String)
    (hp : (sendContent env.primaryEnv r ts cb 0).result = none)
    (_hsync : (sendContent env.syncEnv aci ts scb 0).result.isSome = true)
    (hg : genv.group = Except.ok members)
    (_hgsync : (sendContent genv.syncEnv aci gts gscb 0).result.isSome = true) :
    SendMessage env aci r ts cb scb =
      { WasSuccessful := true
        success := some
          { RecipientUuid := r
            Unidentified := (sendContent env.primaryEnv r ts cb 0).sentUnidentified }
        failed := none } ∧
    SendGroupMessage genv aci gts gcb gscb =
      Except.ok (groupFanout genv aci gts gcb members) := by
  constructor
  · simp only [SendMessage]
    rw [hp]
  · simp only [SendGroupMessage]
    rw [hg]

def witnessAttemptEnvWsFail : AttemptEnv :=
  { witnessAttemptEnv200 with wsSendErr := some "ws error" }

def witnessSendMessageEnv : SendMessageEnv :=
  { primaryEnv := fun _ => witnessAttemptEnv200
    ownSessions := Except.ok [{ uuid := "me", deviceId := 2 }]
    ownDeviceId := 1
    syncEnv := fun _ => witnessAttemptEnvWsFail }

def witnessGroupEnv : GroupEnv :=
  { group := Except.ok ["m1", "me"]
    memberEnv := fun _ _ => witnessAttemptEnv200
    ownSessions := Except.ok [{ uuid := "me", deviceId := 2 }]
    ownDeviceId := 1
    syncEnv := fun _ => witnessAttemptEnvWsFail }

/-- Witness for `selfsync_failure_swallowed`: concrete environments whose
primary sends return 200 and whose self-sync websocket send fails. -/
theorem selfsync_failure_swallowed_witness :
    SendMessage witnessSendMessageEnv "me" "r" 0 [1] [2] =
      { WasSuccessful := true
        success := some
          { RecipientUuid := "r"
            Unidentified :=
              (sendContent witnessSendMessageEnv.primaryEnv "r" 0 [1] 0).sentUnidentified }
        failed := none } ∧
    SendGroupMessage witnessGroupEnv "me" 0 [1] [2] =
      Except.ok (groupFanout witnessGroupEnv "me" 0 [1] ["m1", "me"]) :=
  selfsync_failure_swallowed witnessSendMessageEnv "me" "r" 0 [1] [2]
    witnessGroupEnv 0 [1] [2] ["m1", "me"] (by decide) (by decide) rfl (by decide)
